import Mathlib

/-!
Verification of the query-resolution pipeline of the AI-Agent-Project
repository against its natural-language specification.

The embedding covers:
* `src/main.py` (namespace `App`): input validation, the fast pattern
  matcher `optimized_pattern_matching`, the orchestrator `process_query` /
  `process_and_download`, the web-search fallback, and the visualization
  selector `generate_smart_visualizations` with its chart creators.
* `src/apps/streamlit-app/main.py` (namespace `SA`): the schema extractor
  `get_data_context`, the `st.cache_data`-backed `cached_ai_response`, the
  fingerprint helpers and the cached AI entry point `query_gemini_ai`.

Modelling conventions:
* pandas `DataFrame`s become `DataFrame`: parallel lists of column names,
  inferred dtypes and row lists; cells are strings, exact rationals
  (standing for Python floats: every literal the code parses is decimal,
  so `Rat` represents it exactly) or `null` (NaN/None).
* Python exceptions that the source catches locally are modelled by the
  branch the `except` handler takes (e.g. comparing a datetime column to a
  float raises `TypeError`, and the `except: continue` moves to the next
  regex pattern).  No exception escapes any modelled function, so all
  embeddings are total functions.
* The two external collaborators (Gemini text generation, Google custom
  search) are taken as function parameters, which makes them deterministic
  per prompt within one resolution - the abstraction the spec itself uses.
* ASCII approximations: `Char.toLower`/`Char.toUpper`/`Char.isAlphanum`
  model Python's `str.lower`/`str.upper` and the regex class `\w`
  (Python's are Unicode-aware; every query the theorems touch is ASCII).
* `pandas.Series.str.contains` receives each query token as a regular
  expression; tokens made of ordinary characters (all tokens appearing in
  this development) behave as literal substring search, which is what is
  modelled.
-/

/-- A single cell of a table: a string, an exact numeric value, or a
missing value (pandas `NaN` / Python `None`). -/
inductive Cell where
  | str (s : String)
  | num (x : Rat)
  | null
  deriving DecidableEq, Repr

/-- The inferred scalar dtype of a pandas column: `numeric` stands for the
int/float dtypes, `text` for `object`, `date` for `datetime64[ns]`. -/
inductive DType where
  | numeric
  | text
  | date
  deriving DecidableEq, Repr

/-- An in-memory table: ordered column names, their dtypes, and the rows
(each row lists its cells in column order).  Mirrors the pandas DataFrames
the pipeline consumes. -/
structure DataFrame where
  colNames : List String
  dtypes : List DType
  rows : List (List Cell)
  deriving DecidableEq, Repr

/-- The comparison operators of the numeric-comparison query shape. -/
inductive CmpOp where
  | gt
  | lt
  | ge
  | le
  deriving DecidableEq, Repr

/-- `cmpRat op x t` is the Python comparison `x op t` on numbers. -/
def cmpRat (op : CmpOp) (x t : Rat) : Bool :=
  match op with
  | .gt => decide (t < x)
  | .lt => decide (x < t)
  | .ge => decide (t ≤ x)
  | .le => decide (x ≤ t)

/-- A pandas comparison of a cell against a numeric threshold: `NaN`
compares `False` to everything, so `null` (and any stray string) yields
`false`, which is exactly how filtered rows with missing values drop out. -/
def cmpCell (op : CmpOp) (c : Cell) (t : Rat) : Bool :=
  match c with
  | .num x => cmpRat op x t
  | _ => false

/-- Lowercase a string (Python `str.lower`, ASCII approximation). -/
def lowerStr (s : String) : String :=
  String.mk (s.toList.map Char.toLower)

/-- Uppercase a string (Python `str.upper`, ASCII approximation). -/
def upperStr (s : String) : String :=
  String.mk (s.toList.map Char.toUpper)

/-- Boolean test that `p` occurs as a contiguous sublist of `s`. -/
def listSubB (p : List Char) : List Char → Bool
  | [] => p.isEmpty
  | c :: cs => p.isPrefixOf (c :: cs) || listSubB p cs

/-- Python's `p in s` substring test on strings. -/
def containsStr (p s : String) : Bool :=
  listSubB p.toList s.toList

/-- Digit run to a natural number. -/
def parseDigits (l : List Char) : Nat :=
  l.foldl (fun n c => n * 10 + (c.toNat - '0'.toNat)) 0

/-- Value of a token matched by the regex group `\d+\.?\d*` (always a
valid Python float literal): integer part, optional dot, fraction part. -/
def tokVal (l : List Char) : Rat :=
  let d1 := l.takeWhile Char.isDigit
  let rest := l.dropWhile Char.isDigit
  match rest with
  | '.' :: fr => (parseDigits d1 : Rat) + (parseDigits fr : Rat) / ((10 : Rat) ^ fr.length)
  | _ => (parseDigits d1 : Rat)

/-- `pandas.to_numeric` on one string: strip surrounding whitespace, an
optional sign, digits with an optional fraction; anything else is not a
number (the caller uses `errors="coerce"`, so failure becomes `null`).
Exponent notation is not modelled (no theorem depends on it). -/
def parseRat (s : String) : Option Rat :=
  let l := (s.toList.dropWhile Char.isWhitespace).reverse.dropWhile Char.isWhitespace |>.reverse
  let (neg, l) := match l with
    | '-' :: r => (true, r)
    | '+' :: r => (false, r)
    | r => (false, r)
  let d1 := l.takeWhile Char.isDigit
  let rest := l.dropWhile Char.isDigit
  let ok : Option (List Char) := match rest with
    | [] => if d1 = [] then none else some d1
    | '.' :: fr =>
      if fr.all Char.isDigit ∧ ¬(d1 = [] ∧ fr = []) then some (d1 ++ '.' :: fr) else none
    | _ => none
  match ok with
  | none => none
  | some tok => some (if neg then -(tokVal tok) else tokVal tok)

/-- `pd.to_numeric(cell, errors="coerce")`: numbers stay, strings are
parsed or become `null`, missing stays missing. -/
def toNumericCell (c : Cell) : Cell :=
  match c with
  | .num x => .num x
  | .null => .null
  | .str s =>
    match parseRat s with
    | some x => .num x
    | none => .null

/-- The cells of column `i`, in row order. -/
def colValues (data : DataFrame) (i : Nat) : List Cell :=
  data.rows.map (fun r => r.getD i Cell.null)

/-- In-place numeric coercion of column `i`
(`data[col] = pd.to_numeric(data[col], errors="coerce")`): the column's
cells are coerced and its dtype becomes numeric (float64). -/
def coerceCol (data : DataFrame) (i : Nat) : DataFrame :=
  { data with
    dtypes := data.dtypes.set i .numeric
    rows := data.rows.map (fun r => r.set i (toNumericCell (r.getD i Cell.null))) }

/-- Keep the rows whose cell in column `i` satisfies `op` against `t`
(`data[data[col] op t]`). -/
def applyFilter (data : DataFrame) (i : Nat) (op : CmpOp) (t : Rat) : DataFrame :=
  { data with rows := data.rows.filter (fun r => cmpCell op (r.getD i Cell.null) t) }

/-- Python `str(cell)` as applied by `.astype(str)` to an object column:
`NaN` prints as `"nan"`.  Numeric cells (rare inside an object column) are
rendered by a fixed decimal/ratio form; no theorem depends on that case. -/
def cellToStr (c : Cell) : String :=
  match c with
  | .str s => s
  | .null => "nan"
  | .num x =>
    if x.den = 1 then toString x.num else toString x.num ++ "/" ++ toString x.den

/-- Python `str.split()` — split on whitespace runs, dropping empties. -/
def wordsOfAux : List Char → List Char → List String
  | [], acc => if acc.isEmpty then [] else [String.mk acc.reverse]
  | c :: cs, acc =>
    if c.isWhitespace then
      if acc.isEmpty then wordsOfAux cs [] else String.mk acc.reverse :: wordsOfAux cs []
    else wordsOfAux cs (c :: acc)

/-- Python `str.split()` on a string. -/
def wordsOf (s : String) : List String :=
  wordsOfAux s.toList []

/-- First `some` produced by `f` along a list (models a Python loop that
`return`s on its first hit). -/
def firstSome {α β : Type} (f : α → Option β) : List α → Option β
  | [] => none
  | a :: as =>
    match f a with
    | some b => some b
    | none => firstSome f as

namespace App

/-!  Embedding of `src/main.py`.  -/

/-- The forbidden data-mutation SQL verbs of `validate_query_input`. -/
def dangerous_patterns : List String :=
  ["DROP", "DELETE", "INSERT", "UPDATE", "ALTER", "CREATE", "TRUNCATE"]

/-- `validate_query_input` (src/main.py:153-168): empty/whitespace-only
queries, queries over 1000 characters, and queries containing a forbidden
verb (substring of the upper-cased query) are rejected with a reason. -/
def validate_query_input (query : String) : Bool × String :=
  if query.toList.all Char.isWhitespace then
    (false, "Query cannot be empty")
  else if 1000 < query.length then
    (false, "Query too long (max 1000 characters)")
  else
    match dangerous_patterns.find? (fun p => containsStr p (upperStr query)) with
    | some p => (false, "Query contains potentially dangerous keyword: " ++ p)
    | none => (true, "Query validation passed")

/-- Attempt the regex `(\w+)\s*OP\s*(\d+\.?\d*)` anchored at the start of
`s`: a nonempty run of word characters, optional spaces, the operator
literal, optional spaces, then a number token.  Returns the two capture
groups.  `\w+` cannot usefully backtrack here because the operator
characters are not word characters, so the maximal run is the only
candidate. -/
def matchAt (op : List Char) (s : List Char) : Option (List Char × List Char) :=
  let w := s.takeWhile (fun c => c.isAlphanum || c = '_')
  if w.isEmpty then none
  else
    let rest2 := (s.dropWhile (fun c => c.isAlphanum || c = '_')).dropWhile (fun c => c.isWhitespace)
    if op.isPrefixOf rest2 then
      let rest3 := (rest2.drop op.length).dropWhile (fun c => c.isWhitespace)
      let d1 := rest3.takeWhile Char.isDigit
      if d1.isEmpty then none
      else
        let rest4 := rest3.dropWhile Char.isDigit
        match rest4 with
        | '.' :: rest5 => some (w, d1 ++ '.' :: rest5.takeWhile Char.isDigit)
        | _ => some (w, d1)
    else none

/-- `re.search` for the pattern above: leftmost match wins.  (A match
starting mid-run succeeds exactly when the run-start position also
succeeds, so scanning every suffix reproduces `re.search`.) -/
def searchPattern (op : List Char) : List Char → Option (List Char × List Char)
  | [] => none
  | c :: cs =>
    match matchAt op (c :: cs) with
    | some r => some r
    | none => searchPattern op (c :: cs).tail

/-- The operator literals of the four regexes in the `patterns` list of
`optimized_pattern_matching`, in source order (`>`, `<`, `>=`, `<=`;
`==` and `!=` have no pattern and are never extracted). -/
def patternOps : List (List Char) :=
  [['>'], ['<'], ['>', '='], ['<', '=']]

/-- The comparison the code actually applies: it re-tests the whole query
for operator substrings in the fixed order `>`, `<`, `>=`, `<=` instead of
using the operator of the regex that matched.  Since `>=` contains `>`
and `<=` contains `<`, only the first two branches are reachable. -/
def dispatchOp (ql : String) : Option CmpOp :=
  if containsStr ">" ql then some .gt
  else if containsStr "<" ql then some .lt
  else if containsStr ">=" ql then some .ge
  else if containsStr "<=" ql then some .le
  else none

/-- The inner `for pattern, func in patterns` loop: find the first regex
with a match whose first capture names a column; coerce that column to
numeric when it is object-typed; then filter with the substring-dispatched
operator.  A datetime column raises `TypeError` in the comparison, which
the bare `except` turns into `continue`.  Returns the filtered frame
together with the (possibly coerced, i.e. mutated) dataset. -/
def tryPatterns (data : DataFrame) (ql : String) : List (List Char) → Option (DataFrame × DataFrame)
  | [] => none
  | op :: ops =>
    match searchPattern op ql.toList with
    | none => tryPatterns data ql ops
    | some (w, numTok) =>
      if (data.colNames.map lowerStr).contains (String.mk w) then
        let i := data.colNames.findIdx (fun c => lowerStr c == String.mk w)
        match data.dtypes.getD i .text with
        | .date => tryPatterns data ql ops
        | .numeric =>
          match dispatchOp ql with
          | some op2 => some (applyFilter data i op2 (tokVal numTok), data)
          | none => tryPatterns data ql ops
        | .text =>
          let data2 := coerceCol data i
          match dispatchOp ql with
          | some op2 => some (applyFilter data2 i op2 (tokVal numTok), data2)
          | none => tryPatterns data2 ql ops
      else tryPatterns data ql ops

/-- Guard of the numeric branch: some operator substring occurs in the
lowered query, and some column is numeric-typed or mentioned in it (the
regex work inside the column loop does not depend on the loop variable,
so one qualifying column suffices). -/
def numericGuard (data : DataFrame) (ql : String) : Bool :=
  ([">", "<", ">=", "<=", "==", "!="].any (fun op => containsStr op ql)) &&
    ((data.colNames.zip data.dtypes).any
      (fun cd => cd.2 == DType.numeric || containsStr (lowerStr cd.1) ql))

/-- The numeric-comparison tier of `optimized_pattern_matching`
(src/main.py:614-644).  `none` means the branch fell through. -/
def numericBranch (data : DataFrame) (ql : String) : Option (DataFrame × DataFrame) :=
  if numericGuard data ql then tryPatterns data ql patternOps else none

/-- The substring/contains tier (src/main.py:647-658): for each
object-typed column in order, each query token longer than 3 characters is
tried as a case-insensitive substring filter; first non-empty result wins. -/
def containsBranch (data : DataFrame) (ql : String) : Option DataFrame :=
  if ["contains", "like", "has", "with"].any (fun w => containsStr w ql) then
    firstSome
      (fun i =>
        if data.dtypes.getD i .text = .text then
          firstSome
            (fun w =>
              if 3 < w.length then
                let m := data.rows.filter
                  (fun r => containsStr w (lowerStr (cellToStr (r.getD i Cell.null))))
                if m.isEmpty then none else some { data with rows := m }
              else none)
            (wordsOf ql)
        else none)
      (List.range data.colNames.length)
  else none

/-- The count tier (src/main.py:661-662): a query containing `count` or
`how many` yields the one-row frame `{'count': [len(data)]}`. -/
def countBranch (data : DataFrame) (ql : String) : Option DataFrame :=
  if containsStr "count" ql || containsStr "how many" ql then
    some ⟨["count"], [.numeric], [[.num (data.rows.length : Rat)]]⟩
  else none

/-- `optimized_pattern_matching` (src/main.py:609-664).  Returns the match
result (`none` is Python `None`, the tier's `NoResult`) together with the
dataset as it is after the call — the numeric tier's coercion mutates the
caller's DataFrame in place.  The tiers run in source order: numeric
comparison, then contains, then count. -/
def optimized_pattern_matching (data : DataFrame) (query : String) :
    Option DataFrame × DataFrame :=
  let ql := lowerStr query
  match numericBranch data ql with
  | some (res, data2) => (some res, data2)
  | none =>
    match containsBranch data ql with
    | some res => (some res, data)
    | none =>
      match countBranch data ql with
      | some res => (some res, data)
      | none => (none, data)

end App

namespace App

/-- Outcome of one `query_gemini(prompt, ...)` call to the text-generation
collaborator: a returned string, a returned Python `None`, or a raised
exception with its message. -/
inductive GenOutcome where
  | ok (s : String)
  | nullResp
  | raised (msg : String)
  deriving DecidableEq, Repr

/-- The prompt `query_gemini_ai` (src/main.py:797-814) builds: row count,
the first 10 column names, and the literal query. -/
def geminiPrompt (query : String) (data : DataFrame) : String :=
  "Analyze this query for a dataset with " ++ toString data.rows.length ++
    " rows and columns: " ++ String.intercalate ", " (data.colNames.take 10) ++
    ".\nQuery: " ++ query ++ "\n\nProvide a concise analysis or filtering suggestion."

/-- `query_gemini_ai` (src/main.py:797-814), with the configured API key
(the app stops at startup without one): one collaborator call; a raised
exception becomes the string `"AI Error: ..."`, a `None` reply is passed
through. -/
def query_gemini_ai (gen : String → GenOutcome) (query : String) (data : DataFrame) :
    Option String :=
  match gen (geminiPrompt query data) with
  | .ok s => some s
  | .nullResp => none
  | .raised m => some ("AI Error: " ++ m)

/-- One external interaction of a resolution, for the call trace: the
pattern-matching tier running (no external call), one LLM call, one
web-search call. -/
inductive Call where
  | pat
  | llm
  | web
  deriving DecidableEq, Repr

/-- The empty frame `pd.DataFrame()` returned for AI text responses. -/
def emptyDF : DataFrame := ⟨[], [], []⟩

/-- The AI step of `process_query`: a truthy reply without `"error"` in it
yields the empty frame (the analysis was displayed), anything else yields
Python `None`. -/
def aiStep (gen : String → GenOutcome) (query : String) (d1 : DataFrame) :
    Option DataFrame × DataFrame × List Call :=
  match query_gemini_ai gen query d1 with
  | some s =>
    if s = "" then (none, d1, [.pat, .llm])
    else if containsStr "error" (lowerStr s) then (none, d1, [.pat, .llm])
    else (some emptyDF, d1, [.pat, .llm])
  | none => (none, d1, [.pat, .llm])

/-- `process_query` (src/main.py:586-607): fast pattern matching first; a
non-empty match is returned directly, otherwise the AI tier runs.  Also
returns the dataset after the call (the matcher may have coerced a column
in place) and the trace of tier activity. -/
def process_query (gen : String → GenOutcome) (data : DataFrame) (query mainColumn : String) :
    Option DataFrame × DataFrame × List Call :=
  match optimized_pattern_matching data query with
  | (some df, d1) => if df.rows.isEmpty then aiStep gen query d1 else (some df, d1, [.pat])
  | (none, d1) => aiStep gen query d1

/-- One `{title, link, snippet}` hit of the search collaborator. -/
structure SearchHit where
  title : String
  link : String
  snippet : String
  deriving DecidableEq, Repr

/-- `web_search` (src/main.py:685-703): one collaborator request; provider
failure (exception) and a missing `items` field both yield Python `None`;
the provider's items are mapped onto `{title, link, snippet}` hits.  The
collaborator parameter already delivers the mapped hits. -/
def web_search (srch : String → Option (List SearchHit)) (query : String) :
    Option (List SearchHit) :=
  srch query

/-- What `process_and_download` ends up presenting for one query. -/
inductive Outcome where
  | rejected (reason : String)
  | rows (df : DataFrame)
  | analysis (s : String)
  | hits (l : List SearchHit)
  | nothing
  deriving DecidableEq, Repr

/-- Final fallback inside `process_and_download` (src/main.py:573-582):
one more Gemini call; a truthy reply is displayed, otherwise nothing is. -/
def finalGemini (gen : String → GenOutcome) (query : String) (d1 : DataFrame)
    (t : List Call) : Outcome × List Call :=
  match query_gemini_ai gen query d1 with
  | some r => if r = "" then (.nothing, t ++ [.llm]) else (.analysis r, t ++ [.llm])
  | none => (.nothing, t ++ [.llm])

/-- The `Couldn't process query locally` fallback (src/main.py:565-582):
web search, then a last Gemini attempt. -/
def bottomFallback (gen : String → GenOutcome) (srch : String → Option (List SearchHit))
    (query : String) (d1 : DataFrame) (t : List Call) : Outcome × List Call :=
  match web_search srch query with
  | some l =>
    if l.isEmpty then finalGemini gen query d1 (t ++ [.web])
    else (.hits l, t ++ [.web])
  | none => finalGemini gen query d1 (t ++ [.web])

/-- Web-search step of the empty-result branch (src/main.py:555-563):
a truthy hit list is displayed, otherwise control falls through to the
bottom fallback. -/
def emptyBranchWeb (gen : String → GenOutcome) (srch : String → Option (List SearchHit))
    (query : String) (d1 : DataFrame) (t : List Call) : Outcome × List Call :=
  match web_search srch query with
  | some l =>
    if l.isEmpty then bottomFallback gen srch query d1 (t ++ [.web])
    else (.hits l, t ++ [.web])
  | none => bottomFallback gen srch query d1 (t ++ [.web])

/-- The empty-DataFrame branch of `process_and_download`
(src/main.py:541-563): ask Gemini again; a truthy reply is displayed as the
analysis, otherwise web search runs, then the bottom fallback. -/
def emptyBranch (gen : String → GenOutcome) (srch : String → Option (List SearchHit))
    (query : String) (d1 : DataFrame) (t : List Call) : Outcome × List Call :=
  match query_gemini_ai gen query d1 with
  | some r =>
    if r = "" then emptyBranchWeb gen srch query d1 (t ++ [.llm])
    else (.analysis r, t ++ [.llm])
  | none => emptyBranchWeb gen srch query d1 (t ++ [.llm])

/-- `process_and_download` (src/main.py:498-582) for one submitted query:
validation first (a rejected query runs no tier at all), then
`process_query`, then the source's fallback cascade.  The second component
is the trace of tier/collaborator activity in order. -/
def process_and_download (gen : String → GenOutcome)
    (srch : String → Option (List SearchHit)) (data : DataFrame)
    (query mainColumn : String) : Outcome × List Call :=
  let v := validate_query_input query
  if v.1 = false then (.rejected v.2, [])
  else
    match process_query gen data query mainColumn with
    | (some df, d1, t1) =>
      if df.rows.isEmpty then emptyBranch gen srch query d1 t1 else (.rows df, t1)
    | (none, d1, t1) => bottomFallback gen srch query d1 t1

/-- Pattern tier usability as the orchestrator tests it: the matcher
returned a frame with at least one row. -/
def patternUsable (data : DataFrame) (query : String) : Bool :=
  match (optimized_pattern_matching data query).1 with
  | some df => !df.rows.isEmpty
  | none => false

/-- AI tier usability as `process_query` tests it: a truthy reply without
`"error"` in its lowercase form, for the prompt built over the dataset as
the pattern tier left it. -/
def aiUsable (gen : String → GenOutcome) (data : DataFrame) (query : String) : Bool :=
  match query_gemini_ai gen query (optimized_pattern_matching data query).2 with
  | some s => !(s = "") && !(containsStr "error" (lowerStr s))
  | none => false

end App

namespace App

/-- A produced plotly figure, reduced to its chart family and axis
columns: `line` (time series), `histogram` (distribution), `bar`
(comparison), `scatter` (correlation), `pie` (summary). -/
inductive Chart where
  | line (x y : String)
  | histogram (x : String)
  | bar (x y : String)
  | scatter (x y : String)
  | pie (names values : String)
  deriving DecidableEq, Repr

/-- `select_dtypes(include=['number'])` — numeric column names in order. -/
def numColsOf (data : DataFrame) : List String :=
  ((data.colNames.zip data.dtypes).filter (fun cd => cd.2 == DType.numeric)).map (fun cd => cd.1)

/-- `select_dtypes(include=['object', 'category'])` — text columns. -/
def catColsOf (data : DataFrame) : List String :=
  ((data.colNames.zip data.dtypes).filter (fun cd => cd.2 == DType.text)).map (fun cd => cd.1)

/-- `select_dtypes(include=['datetime64'])` — date columns. -/
def dateColsOf (data : DataFrame) : List String :=
  ((data.colNames.zip data.dtypes).filter (fun cd => cd.2 == DType.date)).map (fun cd => cd.1)

/-- `create_time_series_chart` (src/main.py:728-737): needs a date and a
numeric column, else `None`. -/
def create_time_series_chart (data : DataFrame) : Option Chart :=
  match dateColsOf data, numColsOf data with
  | d :: _, n :: _ => some (.line d n)
  | _, _ => none

/-- `create_distribution_chart` (src/main.py:739-747). -/
def create_distribution_chart (data : DataFrame) : Option Chart :=
  match numColsOf data with
  | n :: _ => some (.histogram n)
  | _ => none

/-- `create_comparison_chart` (src/main.py:749-758). -/
def create_comparison_chart (data : DataFrame) : Option Chart :=
  match catColsOf data, numColsOf data with
  | c :: _, n :: _ => some (.bar c n)
  | _, _ => none

/-- `create_correlation_chart` (src/main.py:760-768): needs two numeric
columns. -/
def create_correlation_chart (data : DataFrame) : Option Chart :=
  match numColsOf data with
  | a :: b :: _ => some (.scatter a b)
  | _ => none

/-- `create_summary_chart` (src/main.py:770-780): a pie chart, only for
at most 20 rows with a categorical and a numeric column. -/
def create_summary_chart (data : DataFrame) : Option Chart :=
  if data.rows.length ≤ 20 then
    match catColsOf data, numColsOf data with
    | c :: _, n :: _ => some (.pie c n)
    | _, _ => none
  else none

/-- `create_auto_chart` (src/main.py:782-795): two numerics → scatter,
else categorical + numeric → bar, else one numeric → histogram, else
nothing. -/
def create_auto_chart (data : DataFrame) : Option Chart :=
  if 2 ≤ (numColsOf data).length then create_correlation_chart data
  else if !(catColsOf data).isEmpty && !(numColsOf data).isEmpty then
    create_comparison_chart data
  else if !(numColsOf data).isEmpty then create_distribution_chart data
  else none

/-- Keyword family tests of `generate_smart_visualizations`. -/
def trendKwB (ql : String) : Bool :=
  ["trend", "over time", "timeline", "time series"].any (fun w => containsStr w ql)

/-- Distribution keywords. -/
def distKwB (ql : String) : Bool :=
  ["distribution", "histogram", "frequency"].any (fun w => containsStr w ql)

/-- Comparison keywords. -/
def cmpKwB (ql : String) : Bool :=
  ["compare", "comparison", "vs", "versus"].any (fun w => containsStr w ql)

/-- Correlation keywords. -/
def corrKwB (ql : String) : Bool :=
  ["correlation", "relationship", "scatter"].any (fun w => containsStr w ql)

/-- Aggregate keywords. -/
def aggKwB (ql : String) : Bool :=
  ["count", "total", "sum", "aggregate"].any (fun w => containsStr w ql)

/-- `generate_smart_visualizations` (src/main.py:705-726): keyword-family
dispatch in fixed priority over the lowered query; with no keyword, the
auto-detection runs.  Each family's creator returns `None` when its
required column types are absent — there is no fall-through to
auto-detection in that case. -/
def generate_smart_visualizations (query : String) (resultData : DataFrame) : Option Chart :=
  let ql := lowerStr query
  if trendKwB ql then create_time_series_chart resultData
  else if distKwB ql then create_distribution_chart resultData
  else if cmpKwB ql then create_comparison_chart resultData
  else if corrKwB ql then create_correlation_chart resultData
  else if aggKwB ql then create_summary_chart resultData
  else create_auto_chart resultData

end App

namespace SA

/-!  Embedding of `src/apps/streamlit-app/main.py`.  -/

/-- The context dictionary `get_data_context`
(src/apps/streamlit-app/main.py:352-374) builds. -/
structure DataContext where
  columns : List String
  dtypes : List (String × String)
  shape : Nat × Nat
  sample_values : List (String × List Cell)
  numeric_columns : List String
  categorical_columns : List String
  deriving DecidableEq, Repr

/-- `str(series.dtype)` for the modelled dtypes. -/
def dtypeName (dt : DType) : String :=
  match dt with
  | .numeric => "float64"
  | .text => "object"
  | .date => "datetime64[ns]"

/-- `series.dropna().unique()`: distinct non-null values in first-occurrence
order. -/
def uniqueFirstAux (seen : List Cell) : List Cell → List Cell
  | [] => []
  | c :: cs => if c ∈ seen then uniqueFirstAux seen cs else c :: uniqueFirstAux (c :: seen) cs

/-- Distinct values of a list in first-occurrence order. -/
def uniqueFirst (l : List Cell) : List Cell :=
  uniqueFirstAux [] l

/-- The distinct non-null values of column `i`. -/
def uniqueCol (data : DataFrame) (i : Nat) : List Cell :=
  uniqueFirst ((colValues data i).filter (fun c => c != Cell.null))

/-- The `sample_values` entry for one column: all distinct non-null values
when there are at most 20, otherwise the first 10 plus the
`"...more values"` marker. -/
def sampleFor (data : DataFrame) (i : Nat) : List Cell :=
  let u := uniqueCol data i
  if u.length ≤ 20 then u else u.take 10 ++ [Cell.str "...more values"]

/-- `get_data_context` (src/apps/streamlit-app/main.py:352-374): columns,
dtype names, shape, bounded sample values, and the numeric/categorical
split (`is_numeric_dtype` decides; everything else is categorical). -/
def get_data_context (data : DataFrame) : DataContext :=
  { columns := data.colNames
    dtypes := (data.colNames.zip data.dtypes).map (fun cd => (cd.1, dtypeName cd.2))
    shape := (data.rows.length, data.colNames.length)
    sample_values :=
      (List.range data.colNames.length).map (fun i => (data.colNames.getD i "", sampleFor data i))
    numeric_columns :=
      ((data.colNames.zip data.dtypes).filter (fun cd => cd.2 == DType.numeric)).map (fun cd => cd.1)
    categorical_columns :=
      ((data.colNames.zip data.dtypes).filter (fun cd => !(cd.2 == DType.numeric))).map (fun cd => cd.1) }

/-- The sample-value list recorded for column `i`. -/
def sampleAt (data : DataFrame) (i : Nat) : List Cell :=
  ((get_data_context data).sample_values.getD i ("", [])).2

/-- Deterministic rendering of a cell for the fingerprint digests. -/
def encodeCell (c : Cell) : String :=
  match c with
  | .str s => "s:" ++ s
  | .num x => "n:" ++ toString x.num ++ "/" ++ toString x.den
  | .null => "-"

/-- Deterministic rendering of a whole frame; stands in for
`data.to_string()` inside the md5 fingerprint of `generate_data_hash`
(the digest itself is not modelled — the spec accepts hash collisions as
an out-of-scope risk, and determinism is all the cache key needs). -/
def encodeDF (data : DataFrame) : String :=
  String.intercalate "," data.colNames ++ "|" ++
    String.intercalate "," (data.dtypes.map dtypeName) ++ "|" ++
    String.intercalate ";" (data.rows.map (fun r => String.intercalate "," (r.map encodeCell)))

/-- `generate_data_hash` (src/apps/streamlit-app/main.py:34-40). -/
def generate_data_hash (data : DataFrame) : String :=
  encodeDF data

/-- Deterministic rendering of a context dictionary; stands in for
`str(data_context)` inside `generate_query_hash`. -/
def encodeContext (ctx : DataContext) : String :=
  String.intercalate "," ctx.columns ++ "|" ++
    String.intercalate "," (ctx.dtypes.map (fun p => p.1 ++ ":" ++ p.2)) ++ "|" ++
    toString ctx.shape.1 ++ "x" ++ toString ctx.shape.2 ++ "|" ++
    String.intercalate ";"
      (ctx.sample_values.map (fun p => p.1 ++ ":" ++ String.intercalate "," (p.2.map encodeCell))) ++
    "|" ++ String.intercalate "," ctx.numeric_columns ++
    "|" ++ String.intercalate "," ctx.categorical_columns

/-- `generate_query_hash` (src/apps/streamlit-app/main.py:42-45):
a digest of `f"{query}_{str(data_context)}"`. -/
def generate_query_hash (query : String) (ctx : DataContext) : String :=
  query ++ "_" ++ encodeContext ctx

/-- The process-wide `st.cache_data` store backing `cached_ai_response`:
memoized return value per `(query_hash, data_context_hash)` argument pair. -/
abbrev SACache : Type :=
  List ((String × String) × Option String)

/-- `cached_ai_response` (src/apps/streamlit-app/main.py:29-32) under
`st.cache_data(ttl=1800)` semantics, within the TTL window: a hit returns
the memoized value, a miss runs the body — which returns `None`
unconditionally — and memoizes that `None`.  Nothing else is ever stored:
the function has no way to receive the AI response. -/
def cached_ai_response (cache : SACache) (queryHash dataHash : String) :
    Option String × SACache :=
  match cache.lookup (queryHash, dataHash) with
  | some v => (v, cache)
  | none => (none, cache ++ [((queryHash, dataHash), none)])

/-- Mutable state threaded through `query_gemini_ai`: the `st.cache_data`
store and the number of `query_gemini` collaborator calls issued so far. -/
structure SAState where
  cache : SACache
  llmCalls : Nat
  deriving Repr

/-- The call path of `query_gemini_ai` after a cache miss: one collaborator
call; a truthy response triggers the `cached_ai_response(query_hash,
data_hash)` "store" call (which cannot store the response — it only
re-memoizes the body's `None`); an exception is caught and yields `None`. -/
def saCallPath (gen : String → DataFrame → App.GenOutcome) (cache : SACache)
    (calls : Nat) (query : String) (data : DataFrame) (qh dh : String) :
    Option String × SAState :=
  match gen query data with
  | .ok s =>
    let cache2 := if s = "" then cache else (cached_ai_response cache qh dh).2
    (some s, ⟨cache2, calls + 1⟩)
  | .nullResp => (none, ⟨cache, calls + 1⟩)
  | .raised _ => (none, ⟨cache, calls + 1⟩)

/-- `query_gemini_ai` (src/apps/streamlit-app/main.py:553-576): fingerprint
the query and dataset, consult `cached_ai_response`, treat a truthy cached
value as a hit, otherwise call the collaborator and "store". -/
def query_gemini_ai (gen : String → DataFrame → App.GenOutcome) (st : SAState)
    (query : String) (data : DataFrame) : Option String × SAState :=
  let dh := generate_data_hash data
  let ctx := get_data_context data
  let qh := generate_query_hash query ctx
  let looked := cached_ai_response st.cache qh dh
  match looked.1 with
  | some cachedText =>
    if cachedText = "" then saCallPath gen looked.2 st.llmCalls query data qh dh
    else (some cachedText, ⟨looked.2, st.llmCalls⟩)
  | none => saCallPath gen looked.2 st.llmCalls query data qh dh

end SA

/-!  Concrete fixtures used by counterexamples and witnesses.  -/

/-- The §8 scenario dataset: columns `[name, score]`, rows
`[("a",10),("b",90)]`. -/
def sampleData : DataFrame :=
  ⟨["name", "score"], [.text, .numeric], [[.str "a", .num 10], [.str "b", .num 90]]⟩

/-- What the matcher actually returns for `"count score > 50"` on
`sampleData`: the numeric tier fires before the count tier. -/
def c1resultDF : DataFrame :=
  ⟨["name", "score"], [.text, .numeric], [[.str "b", .num 90]]⟩

/-- One-column numeric dataset with a single row of value 40. -/
def c2cexData : DataFrame :=
  ⟨["age"], [.numeric], [[.num 40]]⟩

/-- The numeric tier's output on `sampleData` for `"score > 50"`. -/
def c2df : DataFrame :=
  ⟨["name", "score"], [.text, .numeric], [[.str "b", .num 90]]⟩

/-- A text-typed score column holding numeric strings. -/
def c9data : DataFrame :=
  ⟨["score"], [.text], [[.str "10"], [.str "90"]]⟩

/-- A non-empty single-numeric-column result frame. -/
def vresNum : DataFrame :=
  ⟨["score"], [.numeric], [[.num 5]]⟩

/-- A dataset with zero columns and zero rows. -/
def emptyData : DataFrame :=
  ⟨[], [], []⟩

/-- Two columns: one with 21 distinct numeric values, one with a single
distinct text value. -/
def bigSampleData : DataFrame :=
  ⟨["big", "small"], [.numeric, .text], (List.range 21).map (fun n => [.num n, .str "a"])⟩

/-- A dataset with two columns but zero rows. -/
def zeroRowData : DataFrame :=
  ⟨["name", "score"], [.text, .numeric], []⟩

/-- A non-empty single-text-column result frame (no numeric column). -/
def vresText : DataFrame :=
  ⟨["name"], [.text], [[.str "a"]]⟩

/-- A text-generation collaborator that returns Python `None`. -/
def genNull : String → App.GenOutcome :=
  fun _ => .nullResp

/-- A search collaborator whose request fails (maps to Python `None`). -/
def srchNull : String → Option (List App.SearchHit) :=
  fun _ => none

/-- A deterministic text-generation collaborator for the cache scenario. -/
def c4gen : String → DataFrame → App.GenOutcome :=
  fun _ _ => .ok "The dataset has 2 rows."

/-- The dataset of the cache scenario. -/
def c4data : DataFrame :=
  ⟨["score"], [.numeric], [[.num 10], [.num 90]]⟩

/-!  Helper lemmas.  -/

theorem isPrefixOf_mem {p l : List Char} (h : p.isPrefixOf l = true) {c : Char}
    (hc : c ∈ p) : c ∈ l := by
  induction p generalizing l with
  | nil => simp at hc
  | cons a as ih =>
    cases l with
    | nil => simp [List.isPrefixOf] at h
    | cons b bs =>
      rw [List.isPrefixOf] at h
      have hab : a = b := by
        have := (Bool.and_eq_true _ _).mp h
        exact eq_of_beq this.1
      have htl : as.isPrefixOf bs = true := ((Bool.and_eq_true _ _).mp h).2
      rcases List.mem_cons.mp hc with h1 | h2
      · exact h1 ▸ hab ▸ List.mem_cons_self _ _
      · exact List.mem_cons_of_mem _ (ih htl h2)

theorem mem_of_dropWhile {p : Char → Bool} {l : List Char} {c : Char}
    (h : c ∈ l.dropWhile p) : c ∈ l := by
  induction l with
  | nil => simpa using h
  | cons a as ih =>
    rw [List.dropWhile_cons] at h
    by_cases hp : p a
    · simp only [hp, if_true] at h
      exact List.mem_cons_of_mem _ (ih h)
    · simpa [hp] using h

theorem matchAt_mem {op s : List Char} {r : List Char × List Char}
    (h : App.matchAt op s = some r) {c : Char} (hc : c ∈ op) : c ∈ s := by
  unfold App.matchAt at h
  by_cases hw : (s.takeWhile (fun c => c.isAlphanum || c = '_')).isEmpty
  · simp [hw] at h
  · simp only [hw, Bool.false_eq_true, if_false] at h
    by_cases hpre :
        op.isPrefixOf
          ((s.dropWhile (fun c => c.isAlphanum || c = '_')).dropWhile (fun c => c.isWhitespace)) = true
    · exact mem_of_dropWhile (mem_of_dropWhile (isPrefixOf_mem hpre hc))
    · simp [hpre] at h

theorem searchPattern_mem {op : List Char} {s : List Char} {r : List Char × List Char}
    (h : App.searchPattern op s = some r) {c : Char} (hc : c ∈ op) : c ∈ s := by
  induction s with
  | nil => simp [App.searchPattern] at h
  | cons a as ih =>
    rw [App.searchPattern] at h
    cases hm : App.matchAt op (a :: as) with
    | some r2 => exact matchAt_mem hm hc
    | none =>
      rw [hm] at h
      exact List.mem_cons_of_mem _ (ih h)

theorem listSubB_of_mem {c : Char} {s : List Char} (h : c ∈ s) : listSubB [c] s = true := by
  induction s with
  | nil => simp at h
  | cons a as ih =>
    rw [listSubB]
    rcases List.mem_cons.mp h with h1 | h2
    · subst h1
      have : [c].isPrefixOf (c :: as) = true := by
        rw [List.isPrefixOf]
        simp [List.isPrefixOf]
      simp [this]
    · simp [ih h2]

theorem containsStr_gt_of_mem {s : String} (h : '>' ∈ s.toList) :
    containsStr ">" s = true :=
  listSubB_of_mem h

theorem containsStr_lt_of_mem {s : String} (h : '<' ∈ s.toList) :
    containsStr "<" s = true :=
  listSubB_of_mem h

theorem dispatchOp_of_angle {ql : String} (h : '>' ∈ ql.toList ∨ '<' ∈ ql.toList) :
    App.dispatchOp ql = some (if containsStr ">" ql then CmpOp.gt else CmpOp.lt) := by
  unfold App.dispatchOp
  by_cases hgt : containsStr ">" ql = true
  · simp [hgt]
  · have hlt : containsStr "<" ql = true := by
      rcases h with h | h
      · exact absurd (containsStr_gt_of_mem h) hgt
      · exact containsStr_lt_of_mem h
    simp [hgt, hlt]

theorem tryPatterns_spec : ∀ (ops : List (List Char)),
    (∀ op ∈ ops, '>' ∈ op ∨ '<' ∈ op) →
    ∀ (data : DataFrame) (ql : String) (df d2 : DataFrame),
    App.tryPatterns data ql ops = some (df, d2) →
    ∃ i t, i < data.colNames.length ∧
      (d2 = data ∨ d2 = coerceCol data i) ∧
      df = applyFilter d2 i (if containsStr ">" ql then CmpOp.gt else CmpOp.lt) t := by
  intro ops
  induction ops with
  | nil =>
    intro _ data ql df d2 h
    simp [App.tryPatterns] at h
  | cons op ops ih =>
    intro hops data ql df d2 h
    rw [App.tryPatterns] at h
    cases hsp : App.searchPattern op ql.toList with
    | none =>
      rw [hsp] at h
      exact ih (fun o ho => hops o (List.mem_cons_of_mem _ ho)) data ql df d2 h
    | some wn =>
      obtain ⟨w, numTok⟩ := wn
      rw [hsp] at h
      have hangle : '>' ∈ ql.toList ∨ '<' ∈ ql.toList := by
        rcases hops op (List.mem_cons_self _ _) with hgt | hlt
        · exact Or.inl (searchPattern_mem hsp hgt)
        · exact Or.inr (searchPattern_mem hsp hlt)
      have hdisp := dispatchOp_of_angle hangle
      by_cases hin : (data.colNames.map lowerStr).contains (String.mk w) = true
      · simp only [hin, if_true] at h
        have hidx :
            data.colNames.findIdx (fun c => lowerStr c == String.mk w) <
              data.colNames.length := by
          have hmem : String.mk w ∈ data.colNames.map lowerStr := by
            simpa using hin
          obtain ⟨c, hc, hlc⟩ := List.mem_map.mp hmem
          exact List.findIdx_lt_length_of_exists ⟨c, hc, by simp [hlc]⟩
        cases hdt :
            data.dtypes.getD (data.colNames.findIdx (fun c => lowerStr c == String.mk w))
              DType.text with
        | date =>
          rw [hdt] at h
          exact ih (fun o ho => hops o (List.mem_cons_of_mem _ ho)) data ql df d2 h
        | numeric =>
          rw [hdt, hdisp] at h
          have h' := Option.some.inj h
          have h1 := congrArg Prod.fst h'
          have h2 := congrArg Prod.snd h'
          simp only at h1 h2
          exact ⟨data.colNames.findIdx (fun c => lowerStr c == String.mk w), tokVal numTok,
            hidx, Or.inl h2.symm, by rw [← h2]; exact h1.symm⟩
        | text =>
          rw [hdt, hdisp] at h
          have h' := Option.some.inj h
          have h1 := congrArg Prod.fst h'
          have h2 := congrArg Prod.snd h'
          simp only at h1 h2
          exact ⟨data.colNames.findIdx (fun c => lowerStr c == String.mk w), tokVal numTok,
            hidx, Or.inr h2.symm, by rw [← h2]; exact h1.symm⟩
      · simp only [hin, Bool.false_eq_true, if_false] at h
        exact ih (fun o ho => hops o (List.mem_cons_of_mem _ ho)) data ql df d2 h

theorem numericBranch_spec {data : DataFrame} {ql : String} {df d2 : DataFrame}
    (h : App.numericBranch data ql = some (df, d2)) :
    ∃ i t, i < data.colNames.length ∧
      (d2 = data ∨ d2 = coerceCol data i) ∧
      df = applyFilter d2 i (if containsStr ">" ql then CmpOp.gt else CmpOp.lt) t := by
  unfold App.numericBranch at h
  by_cases hg : App.numericGuard data ql = true
  · rw [if_pos hg] at h
    exact tryPatterns_spec App.patternOps (by decide) data ql df d2 h
  · rw [if_neg hg] at h
    exact absurd h (by simp)

/-!  Claim theorems.  -/

/-- C2 (corrected): the counterexample.  The query
`"show -> age <= 30"` matches the numeric-comparison shape only through
the `<=` regex (column `age`, threshold 30) — the code's own extraction
also finds exactly that pair — yet the returned row has `age = 40`: the
operator applied is chosen by substring dispatch (the `->` arrow makes
`'>' in query` true), so the stated comparison `age ≤ 30` is violated by
the returned row. -/
theorem c2_counterexample :
    (App.optimized_pattern_matching c2cexData "show -> age <= 30").1 =
      some ⟨["age"], [.numeric], [[.num 40]]⟩ ∧
    cmpCell CmpOp.le (Cell.num 40) 30 = false := by
  constructor
  · decide
  · decide

/-- C2 (corrected, amended): whenever the numeric-comparison tier returns,
there is a matched column `i` of the dataset and a threshold `t` such that
(a) the dataset after the call is the input dataset with at most column
`i` coerced to numeric, (b) the result keeps the dataset's schema, and
(c) every returned row is a row of the (possibly coerced) dataset whose
value in column `i` is non-null and satisfies the comparison the code
dispatches from query substrings — `>` if the query contains `>` anywhere,
else `<`; the `>=`/`<=`/`==`/`!=` operators of the claimed shape are never
applied as such.  Null-coerced rows are excluded. -/
theorem c2_theorem : ∀ (data : DataFrame) (ql : String) (df d2 : DataFrame),
    App.numericBranch data ql = some (df, d2) →
    ∃ i t, i < data.colNames.length ∧
      (d2 = data ∨ d2 = coerceCol data i) ∧
      df.colNames = data.colNames ∧
      ∀ r ∈ df.rows, r ∈ d2.rows ∧
        ∃ x : Rat, r.getD i Cell.null = Cell.num x ∧
          cmpRat (if containsStr ">" ql then CmpOp.gt else CmpOp.lt) x t = true := by
  intro data ql df d2 h
  obtain ⟨i, t, hi, hd2, hdf⟩ := numericBranch_spec h
  refine ⟨i, t, hi, hd2, ?_, ?_⟩
  · have hcols : d2.colNames = data.colNames := by
      rcases hd2 with h2 | h2
      · rw [h2]
      · rw [h2]; rfl
    rw [hdf]
    exact hcols
  · intro r hr
    rw [hdf] at hr
    unfold applyFilter at hr
    simp only [List.mem_filter] at hr
    obtain ⟨hrmem, hcmp⟩ := hr
    refine ⟨hrmem, ?_⟩
    cases hc : r.getD i Cell.null with
    | num x =>
      rw [hc] at hcmp
      exact ⟨x, rfl, hcmp⟩
    | str s => rw [hc] at hcmp; simp [cmpCell] at hcmp
    | null => rw [hc] at hcmp; simp [cmpCell] at hcmp

/-- C2 (witness): on `sampleData` and the §8 query `"score > 50"` the
numeric tier fires, so the amended theorem's conclusion holds there. -/
theorem c2_witness :
    ∃ i t, i < sampleData.colNames.length ∧
      (sampleData = sampleData ∨ sampleData = coerceCol sampleData i) ∧
      c2df.colNames = sampleData.colNames ∧
      ∀ r ∈ c2df.rows, r ∈ sampleData.rows ∧
        ∃ x : Rat, r.getD i Cell.null = Cell.num x ∧
          cmpRat (if containsStr ">" "score > 50" then CmpOp.gt else CmpOp.lt) x t = true :=
  c2_theorem sampleData "score > 50" c2df sampleData (by decide)

/-- C9 (corrected): the counterexample.  On a text-typed `score` column
and the query `"score > 50"`, the call leaves the caller's dataset with
the column coerced to numeric dtype and parsed values — the original
text-typed column does not survive the call. -/
theorem c9_counterexample :
    (App.optimized_pattern_matching c9data "score > 50").2 =
      ⟨["score"], [.numeric], [[.num 10], [.num 90]]⟩ ∧
    c9data.dtypes = [DType.text] ∧
    (App.optimized_pattern_matching c9data "score > 50").2 ≠ c9data := by
  refine ⟨by decide, by decide, by decide⟩

/-- C9 (corrected, amended): after any call, the caller's dataset is
either unchanged or is the input dataset with exactly one column coerced
to numeric in place (dtype and cell values); the coercion is neither
scoped to a copy nor reverted, so it persists for subsequent calls. -/
theorem c9_theorem : ∀ (data : DataFrame) (query : String),
    (App.optimized_pattern_matching data query).2 = data ∨
      ∃ i, i < data.colNames.length ∧
        (App.optimized_pattern_matching data query).2 = coerceCol data i := by
  intro data query
  simp only [App.optimized_pattern_matching]
  cases hnb : App.numericBranch data (lowerStr query) with
  | some p =>
    obtain ⟨res, d2⟩ := p
    obtain ⟨i, t, hi, hd2, _⟩ := numericBranch_spec hnb
    rcases hd2 with h2 | h2
    · exact Or.inl h2
    · exact Or.inr ⟨i, hi, h2⟩
  | none =>
    cases App.containsBranch data (lowerStr query) with
    | some res => exact Or.inl rfl
    | none =>
      cases App.countBranch data (lowerStr query) with
      | some res => exact Or.inl rfl
      | none => exact Or.inl rfl

/-- C1 (corrected): the counterexample.  The query `"count score > 50"`
contains `"count"`, yet the matcher returns the numeric-comparison result
(the score-90 row of the dataset), not the single-row count `len(D) = 2`:
in the source the count tier is checked last, not first. -/
theorem c1_counterexample :
    (App.optimized_pattern_matching sampleData "count score > 50").1 = some c1resultDF ∧
    c1resultDF.colNames ≠ ["count"] ∧
    c1resultDF.rows ≠ [[Cell.num (sampleData.rows.length : Rat)]] := by
  refine ⟨by decide, by decide, by decide⟩

/-- C1 (corrected, amended): count detection has the *lowest* priority of
the three shapes.  For any query containing `"count"` or `"how many"`, the
matcher returns the single-row, single-column frame holding `len(D)` of
the unfiltered dataset provided neither the numeric-comparison tier nor
the contains tier produced a result first. -/
theorem c1_theorem : ∀ (data : DataFrame) (query : String),
    (containsStr "count" (lowerStr query) || containsStr "how many" (lowerStr query)) = true →
    App.numericBranch data (lowerStr query) = none →
    App.containsBranch data (lowerStr query) = none →
    (App.optimized_pattern_matching data query).1 =
      some ⟨["count"], [.numeric], [[.num (data.rows.length : Rat)]]⟩ := by
  intro data query hkw hnb hcb
  simp only [App.optimized_pattern_matching]
  rw [hnb, hcb]
  unfold App.countBranch
  rw [hkw]
  simp

/-- C1 (witness): the §8 query `"how many records"` on `sampleData`
satisfies the amended theorem's hypotheses and yields `count = 2`. -/
theorem c1_witness :
    (containsStr "count" (lowerStr "how many records") ||
        containsStr "how many" (lowerStr "how many records")) = true ∧
    App.numericBranch sampleData (lowerStr "how many records") = none ∧
    App.containsBranch sampleData (lowerStr "how many records") = none ∧
    (App.optimized_pattern_matching sampleData "how many records").1 =
      some ⟨["count"], [.numeric], [[.num (sampleData.rows.length : Rat)]]⟩ :=
  ⟨by decide, by decide, by decide,
    c1_theorem sampleData "how many records" (by decide) (by decide) (by decide)⟩

/-- C3 (confirmed): the fast pattern matcher is a total function with no
collaborator parameter (its type alone shows this tier makes no external
call), and an input on which all three shape tiers abstain yields Python
`None` — `NoResult` — with the dataset untouched, never an error.  All
exceptions the source can raise inside this function are caught by its
bare `except` handlers, which the embedding reflects branch by branch. -/
theorem c3_theorem : ∀ (data : DataFrame) (query : String),
    App.numericBranch data (lowerStr query) = none →
    App.containsBranch data (lowerStr query) = none →
    (containsStr "count" (lowerStr query) || containsStr "how many" (lowerStr query)) = false →
    App.optimized_pattern_matching data query = (none, data) := by
  intro data query hnb hcb hkw
  simp only [App.optimized_pattern_matching]
  rw [hnb, hcb]
  unfold App.countBranch
  rw [hkw]
  simp

/-- C3 (witness): the §8 no-match query `"xyz123"` on `sampleData`. -/
theorem c3_witness :
    App.numericBranch sampleData (lowerStr "xyz123") = none ∧
    App.containsBranch sampleData (lowerStr "xyz123") = none ∧
    (containsStr "count" (lowerStr "xyz123") ||
        containsStr "how many" (lowerStr "xyz123")) = false ∧
    App.optimized_pattern_matching sampleData "xyz123" = (none, sampleData) :=
  ⟨by decide, by decide, by decide,
    c3_theorem sampleData "xyz123" (by decide) (by decide) (by decide)⟩

/-- C7 (confirmed): a query is rejected by validation exactly when it is
empty/whitespace-only, longer than 1000 characters, or contains one of the
data-mutation SQL verbs as a substring of its upper-cased text; and a
rejected query is surfaced as a validation failure with the human-readable
reason while no tier runs — the call trace is empty, so no pattern
matching, AI call or web search happens. -/
theorem c7_theorem : ∀ query : String,
    ((App.validate_query_input query).1 = false ↔
      (query.toList.all Char.isWhitespace = true ∨ 1000 < query.length ∨
        ∃ p ∈ App.dangerous_patterns, containsStr p (upperStr query) = true)) ∧
    ∀ (gen : String → App.GenOutcome) (srch : String → Option (List App.SearchHit))
      (data : DataFrame) (mainColumn : String),
      (App.validate_query_input query).1 = false →
      App.process_and_download gen srch data query mainColumn =
        (.rejected (App.validate_query_input query).2, []) := by
  intro query
  constructor
  · unfold App.validate_query_input
    by_cases hws : query.toList.all Char.isWhitespace = true
    · rw [if_pos hws]
      exact ⟨fun _ => Or.inl hws, fun _ => rfl⟩
    · rw [if_neg hws]
      by_cases hlen : 1000 < query.length
      · rw [if_pos hlen]
        exact ⟨fun _ => Or.inr (Or.inl hlen), fun _ => rfl⟩
      · rw [if_neg hlen]
        cases hfind : App.dangerous_patterns.find? (fun p => containsStr p (upperStr query)) with
        | some p =>
          constructor
          · intro _
            exact Or.inr (Or.inr
              ⟨p, List.mem_of_find?_eq_some hfind, by simpa using List.find?_some hfind⟩)
          · intro _
            rfl
        | none =>
          constructor
          · intro h
            exact absurd h (by simp)
          · intro h
            rcases h with h | h | ⟨p, hp, hc⟩
            · exact absurd h hws
            · exact absurd h hlen
            · exact absurd hc (by
                have := List.find?_eq_none.mp hfind p hp
                simpa using this)
  · intro gen srch data mainColumn hval
    unfold App.process_and_download
    rw [if_pos hval]

/-- C7 (witness): `"DROP TABLE users"` is rejected and the pipeline does
nothing for it; the rejection reason is the keyword message. -/
theorem c7_witness :
    (App.validate_query_input "DROP TABLE users").1 = false ∧
    App.process_and_download genNull srchNull sampleData "DROP TABLE users" "name" =
      (.rejected (App.validate_query_input "DROP TABLE users").2, []) := by
  have hval : (App.validate_query_input "DROP TABLE users").1 = false :=
    ( c7_theorem "DROP TABLE users").1.mpr
      (Or.inr (Or.inr ⟨"DROP", by decide, by decide⟩))
  exact ⟨hval,
    ( c7_theorem "DROP TABLE users").2 genNull srchNull sampleData "name" hval⟩

/-- C10 (confirmed): the forbidden-keyword check is a plain substring test
on the upper-cased query, so any query containing a data-mutation verb —
even inside a longer innocuous word — is rejected as invalid. -/
theorem c10_theorem : ∀ (query p : String), p ∈ App.dangerous_patterns →
    containsStr p (upperStr query) = true →
    (App.validate_query_input query).1 = false := by
  intro query p hp hc
  unfold App.validate_query_input
  by_cases hws : query.toList.all Char.isWhitespace = true
  · rw [if_pos hws]
  · rw [if_neg hws]
    by_cases hlen : 1000 < query.length
    · rw [if_pos hlen]
    · rw [if_neg hlen]
      cases hfind : App.dangerous_patterns.find? (fun q => containsStr q (upperStr query)) with
      | some q => rfl
      | none =>
        exact absurd hc (by
          have := List.find?_eq_none.mp hfind p hp
          simpa using this)

/-- C10 (witness): `"show updated records"` contains no SQL statement but
contains `UPDATE` inside `updated`, and is rejected. -/
theorem c10_witness : (App.validate_query_input "show updated records").1 = false :=
  c10_theorem "show updated records" "UPDATE" (by decide) (by decide)

/-- C4 (code_bug): the failing run, evaluated concretely.  Resolving the
same (query, dataset) pair twice in a row from an empty cache — well
inside the 30-minute TTL window, with a deterministic collaborator — does
return identical analysis text, but the second resolution is *not* served
from the cache and a second LLM call is issued: `cached_ai_response`'s
body returns `None` unconditionally, so the `st.cache_data` store can
only ever memoize `None`, and the "store" call after a response receives
nothing to store.  The code contradicts its own docstring ("Cache AI
responses for 30 minutes to avoid redundant API calls"). -/
theorem c4_theorem :
    (SA.query_gemini_ai c4gen ⟨[], 0⟩ "analyze scores" c4data).1 =
      some "The dataset has 2 rows." ∧
    (SA.query_gemini_ai c4gen
        (SA.query_gemini_ai c4gen ⟨[], 0⟩ "analyze scores" c4data).2
        "analyze scores" c4data).1 = some "The dataset has 2 rows." ∧
    (SA.query_gemini_ai c4gen
        (SA.query_gemini_ai c4gen ⟨[], 0⟩ "analyze scores" c4data).2
        "analyze scores" c4data).2.llmCalls = 2 := by
  refine ⟨by decide, by decide, by decide⟩

/-- C6 (corrected): the counterexample.  A time-series query
(`"trend"` keyword) over a non-empty result with one numeric column and
no date column returns *no chart at all*, even though auto-detection on
the same result would produce a distribution histogram: the selector does
not fall through to auto-detection when the keyword-selected family's
required column types are absent. -/
theorem c6_counterexample :
    App.generate_smart_visualizations "trend" vresNum = none ∧
    App.create_auto_chart vresNum = some (.histogram "score") := by
  refine ⟨by decide, by decide⟩

/-- C6 (corrected, amended): dispatch is by keyword family in the fixed
priority time-series → distribution → comparison → correlation →
aggregate → auto-detection (each family's dispatch equation below holds
whenever every higher-priority family's keywords are absent), and each
keyword-selected family yields no chart exactly when its required columns
are absent — time series: a date and a numeric column; distribution: a
numeric column; comparison: a categorical and a numeric column;
correlation: two numeric columns; aggregate: a categorical and a numeric
column over at most 20 rows — with no fall-through to auto-detection.
Auto-detection runs only when no keyword family matches, with priority
≥2 numeric → correlation (scatter), else categorical + numeric →
comparison (bar), else ≥1 numeric → distribution (histogram), else none. -/
theorem c6_theorem : ∀ (query : String) (res : DataFrame),
    ((App.trendKwB (lowerStr query) = true →
        App.generate_smart_visualizations query res = App.create_time_series_chart res) ∧
      (App.create_time_series_chart res = none ↔
        App.dateColsOf res = [] ∨ App.numColsOf res = [])) ∧
    ((App.trendKwB (lowerStr query) = false → App.distKwB (lowerStr query) = true →
        App.generate_smart_visualizations query res = App.create_distribution_chart res) ∧
      (App.create_distribution_chart res = none ↔ App.numColsOf res = [])) ∧
    ((App.trendKwB (lowerStr query) = false → App.distKwB (lowerStr query) = false →
        App.cmpKwB (lowerStr query) = true →
        App.generate_smart_visualizations query res = App.create_comparison_chart res) ∧
      (App.create_comparison_chart res = none ↔
        App.catColsOf res = [] ∨ App.numColsOf res = [])) ∧
    ((App.trendKwB (lowerStr query) = false → App.distKwB (lowerStr query) = false →
        App.cmpKwB (lowerStr query) = false → App.corrKwB (lowerStr query) = true →
        App.generate_smart_visualizations query res = App.create_correlation_chart res) ∧
      (App.create_correlation_chart res = none ↔ (App.numColsOf res).length < 2)) ∧
    ((App.trendKwB (lowerStr query) = false → App.distKwB (lowerStr query) = false →
        App.cmpKwB (lowerStr query) = false → App.corrKwB (lowerStr query) = false →
        App.aggKwB (lowerStr query) = true →
        App.generate_smart_visualizations query res = App.create_summary_chart res) ∧
      (App.create_summary_chart res = none ↔
        20 < res.rows.length ∨ App.catColsOf res = [] ∨ App.numColsOf res = [])) ∧
    (App.trendKwB (lowerStr query) = false → App.distKwB (lowerStr query) = false →
      App.cmpKwB (lowerStr query) = false → App.corrKwB (lowerStr query) = false →
      App.aggKwB (lowerStr query) = false →
      App.generate_smart_visualizations query res = App.create_auto_chart res) ∧
    (2 ≤ (App.numColsOf res).length →
      App.create_auto_chart res =
        some (.scatter ((App.numColsOf res).getD 0 "") ((App.numColsOf res).getD 1 ""))) ∧
    ((App.numColsOf res).length = 1 → App.catColsOf res ≠ [] →
      App.create_auto_chart res =
        some (.bar ((App.catColsOf res).getD 0 "") ((App.numColsOf res).getD 0 ""))) ∧
    ((App.numColsOf res).length = 1 → App.catColsOf res = [] →
      App.create_auto_chart res = some (.histogram ((App.numColsOf res).getD 0 ""))) ∧
    ((App.numColsOf res).length = 0 → App.create_auto_chart res = none) := by
  intro query res
  refine ⟨⟨?_, ?_⟩, ⟨?_, ?_⟩, ⟨?_, ?_⟩, ⟨?_, ?_⟩, ⟨?_, ?_⟩, ?_, ?_, ?_, ?_, ?_⟩
  · intro ht
    simp only [App.generate_smart_visualizations, ht, if_true]
  · unfold App.create_time_series_chart
    cases hd : App.dateColsOf res <;> cases hn : App.numColsOf res <;> simp
  · intro h1 h2
    simp only [App.generate_smart_visualizations, h1, h2, Bool.false_eq_true, if_false,
      if_true]
  · unfold App.create_distribution_chart
    cases hn : App.numColsOf res <;> simp
  · intro h1 h2 h3
    simp only [App.generate_smart_visualizations, h1, h2, h3, Bool.false_eq_true, if_false,
      if_true]
  · unfold App.create_comparison_chart
    cases hc : App.catColsOf res <;> cases hn : App.numColsOf res <;> simp
  · intro h1 h2 h3 h4
    simp only [App.generate_smart_visualizations, h1, h2, h3, h4, Bool.false_eq_true,
      if_false, if_true]
  · unfold App.create_correlation_chart
    cases hn : App.numColsOf res with
    | nil => simp
    | cons a rest =>
      cases rest with
      | nil => simp
      | cons b rest2 =>
        simp only [List.length_cons]
        exact ⟨fun h => by simp at h, fun h => absurd h (by omega)⟩
  · intro h1 h2 h3 h4 h5
    simp only [App.generate_smart_visualizations, h1, h2, h3, h4, h5, Bool.false_eq_true,
      if_false, if_true]
  · unfold App.create_summary_chart
    by_cases hlen : res.rows.length ≤ 20
    · rw [if_pos hlen]
      have hnot : ¬ 20 < res.rows.length := by omega
      cases hc : App.catColsOf res <;> cases hn : App.numColsOf res <;> simp [hnot]
    · rw [if_neg hlen]
      have hgt : 20 < res.rows.length := by omega
      simp [hgt]
  · intro h1 h2 h3 h4 h5
    simp only [App.generate_smart_visualizations, h1, h2, h3, h4, h5, Bool.false_eq_true,
      if_false]
  · intro h2
    unfold App.create_auto_chart
    rw [if_pos h2]
    unfold App.create_correlation_chart
    cases hn : App.numColsOf res with
    | nil => rw [hn] at h2; simp at h2
    | cons a rest =>
      cases rest with
      | nil => rw [hn] at h2; simp at h2
      | cons b rest2 => simp [hn]
  · intro h1 hcat
    unfold App.create_auto_chart
    rw [if_neg (by omega : ¬ 2 ≤ (App.numColsOf res).length)]
    cases hn : App.numColsOf res with
    | nil => rw [hn] at h1; simp at h1
    | cons a rest =>
      cases rest with
      | cons b rest2 => rw [hn] at h1; simp at h1
      | nil =>
        cases hc : App.catColsOf res with
        | nil => exact absurd hc hcat
        | cons c crest =>
          rw [if_pos (by simp [hn, hc])]
          unfold App.create_comparison_chart
          simp [hn, hc]
  · intro h1 hcat
    unfold App.create_auto_chart
    rw [if_neg (by omega : ¬ 2 ≤ (App.numColsOf res).length)]
    rw [if_neg (by simp [hcat])]
    cases hn : App.numColsOf res with
    | nil => rw [hn] at h1; simp at h1
    | cons a rest =>
      cases rest with
      | cons b rest2 => rw [hn] at h1; simp at h1
      | nil =>
        rw [if_pos (by simp [hn])]
        unfold App.create_distribution_chart
        simp [hn]
  · intro h0
    have hn : App.numColsOf res = [] := List.length_eq_zero.mp h0
    unfold App.create_auto_chart
    rw [if_neg (by omega : ¬ 2 ≤ (App.numColsOf res).length)]
    rw [if_neg (by simp [hn])]
    rw [if_neg (by simp [hn])]

/-- C6 (witness): concrete instances of the amended theorem — a
time-series query with no date column, a distribution query with no
numeric column, and an aggregate query over 21 rows all yield no chart;
a keyword-free query is dispatched to auto-detection, which picks the
histogram. -/
theorem c6_witness :
    App.generate_smart_visualizations "show trend by month" vresNum = none ∧
    App.generate_smart_visualizations "histogram" vresText = none ∧
    App.generate_smart_visualizations "total" bigSampleData = none ∧
    App.generate_smart_visualizations "hello" vresNum = App.create_auto_chart vresNum ∧
    App.create_auto_chart vresNum = some (.histogram ((App.numColsOf vresNum).getD 0 "")) := by
  refine ⟨?_, ?_, ?_, ?_, ?_⟩
  · have h := c6_theorem "show trend by month" vresNum
    exact (h.1.1 (by decide)).trans (h.1.2.mpr (Or.inl (by decide)))
  · have h := c6_theorem "histogram" vresText
    exact (h.2.1.1 (by decide) (by decide)).trans (h.2.1.2.mpr (by decide))
  · have h := c6_theorem "total" bigSampleData
    exact (h.2.2.2.2.1.1 (by decide) (by decide) (by decide) (by decide) (by decide)).trans
      (h.2.2.2.2.1.2.mpr (Or.inl (by decide)))
  · exact ( c6_theorem "hello" vresNum).2.2.2.2.2.1 (by decide) (by decide) (by decide)
      (by decide) (by decide)
  · exact ( c6_theorem "hello" vresNum).2.2.2.2.2.2.2.2.1 (by decide) (by decide)

theorem sampleAt_eq {data : DataFrame} {i : Nat} (h : i < data.colNames.length) :
    SA.sampleAt data i = SA.sampleFor data i := by
  unfold SA.sampleAt SA.get_data_context
  simp only [List.getD_eq_getElem?_getD, List.getElem?_map, List.getElem?_range h]
  rfl

/-- C8 (corrected): the counterexample.  On a dataset with two columns
and zero rows, `get_data_context` returns a descriptor listing both
columns — not a descriptor with zero columns, as the claim asserts for
the zero-row case. -/
theorem c8_counterexample :
    zeroRowData.rows = [] ∧
    (SA.get_data_context zeroRowData).columns = ["name", "score"] ∧
    (SA.get_data_context zeroRowData).columns ≠ [] := by
  refine ⟨by decide, by decide, by decide⟩

/-- C8 (corrected, amended): `get_data_context` is a total Lean function
of the dataset alone (purity; it cannot fail on any input, including zero
columns or zero rows).  Its descriptor always lists exactly the dataset's
columns — so a zero-column dataset yields a zero-column descriptor, while
a zero-row dataset keeps its columns, each with an empty sample list.
Per column, the listed sample values are all the distinct non-null values
when there are at most 20 of them, otherwise the first 10 followed by the
`"...more values"` marker — never more than 21 entries, bounding the
descriptor's size. -/
theorem c8_theorem : ∀ data : DataFrame,
    (SA.get_data_context data).columns = data.colNames ∧
    (data.colNames = [] → (SA.get_data_context data).columns = []) ∧
    (data.rows = [] → ∀ i, i < data.colNames.length → SA.sampleAt data i = []) ∧
    ∀ i, i < data.colNames.length →
      ((SA.uniqueCol data i).length ≤ 20 → SA.sampleAt data i = SA.uniqueCol data i) ∧
      (20 < (SA.uniqueCol data i).length →
        SA.sampleAt data i = (SA.uniqueCol data i).take 10 ++ [Cell.str "...more values"]) ∧
      (SA.sampleAt data i).length ≤ 21 := by
  intro data
  refine ⟨rfl, ?_, ?_, ?_⟩
  · intro h
    exact h
  · intro hrows i hi
    rw [sampleAt_eq hi]
    unfold SA.sampleFor SA.uniqueCol colValues
    rw [hrows]
    rfl
  · intro i hi
    rw [sampleAt_eq hi]
    unfold SA.sampleFor
    by_cases hle : (SA.uniqueCol data i).length ≤ 20
    · rw [if_pos hle]
      exact ⟨fun _ => rfl, fun hgt => absurd hgt (by omega), by omega⟩
    · rw [if_neg hle]
      refine ⟨fun h => absurd h hle, fun _ => rfl, ?_⟩
      rw [List.length_append, List.length_take]
      simp only [List.length_singleton]
      omega

/-- C8 (witness): concrete instances — the zero-column dataset yields a
zero-column descriptor, the zero-row dataset keeps its two columns with
an empty sample list, and on the two-column fixture (21 distinct numeric
values, one distinct text value) both sampling branches fire. -/
theorem c8_witness :
    (SA.get_data_context emptyData).columns = [] ∧
    (SA.get_data_context zeroRowData).columns = zeroRowData.colNames ∧
    SA.sampleAt zeroRowData 0 = [] ∧
    SA.sampleAt bigSampleData 0 =
      (SA.uniqueCol bigSampleData 0).take 10 ++ [Cell.str "...more values"] ∧
    SA.sampleAt bigSampleData 1 = SA.uniqueCol bigSampleData 1 :=
  ⟨(c8_theorem emptyData).2.1 rfl,
    (c8_theorem zeroRowData).1,
    (c8_theorem zeroRowData).2.2.1 rfl 0 (by decide),
    ((c8_theorem bigSampleData).2.2.2 0 (by decide)).2.1 (by decide),
    ((c8_theorem bigSampleData).2.2.2 1 (by decide)).1 (by decide)⟩

theorem process_query_cases (gen : String → App.GenOutcome) (data : DataFrame)
    (query mc : String) :
    (∃ df, App.patternUsable data query = true ∧ df.rows.isEmpty = false ∧
      App.process_query gen data query mc =
        (some df, (App.optimized_pattern_matching data query).2, [.pat])) ∨
    (∃ s, App.aiUsable gen data query = true ∧
      App.query_gemini_ai gen query (App.optimized_pattern_matching data query).2 = some s ∧
      s ≠ "" ∧
      App.process_query gen data query mc =
        (some App.emptyDF, (App.optimized_pattern_matching data query).2, [.pat, .llm])) ∨
    (App.patternUsable data query = false ∧ App.aiUsable gen data query = false ∧
      App.process_query gen data query mc =
        (none, (App.optimized_pattern_matching data query).2, [.pat, .llm])) := by
  cases hopm : App.optimized_pattern_matching data query with
  | mk fast d1 =>
    cases fast with
    | some df =>
      by_cases hrows : df.rows.isEmpty = true
      · cases hai : App.query_gemini_ai gen query d1 with
        | none =>
          refine Or.inr (Or.inr ⟨?_, ?_, ?_⟩)
          · simp [App.patternUsable, hopm, hrows]
          · simp [App.aiUsable, hopm, hai]
          · simp only [App.process_query, hopm]
            rw [if_pos hrows]
            unfold App.aiStep
            rw [hai]
        | some s =>
          by_cases hs : s = ""
          · refine Or.inr (Or.inr ⟨?_, ?_, ?_⟩)
            · simp [App.patternUsable, hopm, hrows]
            · simp [App.aiUsable, hopm, hai, hs]
            · simp only [App.process_query, hopm]
              rw [if_pos hrows]
              unfold App.aiStep
              rw [hai]
              simp [hs]
          · by_cases herr : containsStr "error" (lowerStr s) = true
            · refine Or.inr (Or.inr ⟨?_, ?_, ?_⟩)
              · simp [App.patternUsable, hopm, hrows]
              · simp [App.aiUsable, hopm, hai, hs, herr]
              · simp only [App.process_query, hopm]
                rw [if_pos hrows]
                unfold App.aiStep
                rw [hai]
                simp [hs, herr]
            · refine Or.inr (Or.inl ⟨s, ?_, ?_, hs, ?_⟩)
              · simp [App.aiUsable, hopm, hai, hs, herr]
              · simp [hopm, hai]
              · simp only [App.process_query, hopm]
                rw [if_pos hrows]
                unfold App.aiStep
                rw [hai]
                simp [hs, herr]
      · refine Or.inl ⟨df, ?_, ?_, ?_⟩
        · simp [App.patternUsable, hopm, hrows]
        · simpa using hrows
        · simp only [App.process_query, hopm]
          rw [if_neg hrows]
    | none =>
      cases hai : App.query_gemini_ai gen query d1 with
      | none =>
        refine Or.inr (Or.inr ⟨?_, ?_, ?_⟩)
        · simp [App.patternUsable, hopm]
        · simp [App.aiUsable, hopm, hai]
        · simp only [App.process_query, hopm]
          unfold App.aiStep
          rw [hai]
      | some s =>
        by_cases hs : s = ""
        · refine Or.inr (Or.inr ⟨?_, ?_, ?_⟩)
          · simp [App.patternUsable, hopm]
          · simp [App.aiUsable, hopm, hai, hs]
          · simp only [App.process_query, hopm]
            unfold App.aiStep
            rw [hai]
            simp [hs]
        · by_cases herr : containsStr "error" (lowerStr s) = true
          · refine Or.inr (Or.inr ⟨?_, ?_, ?_⟩)
            · simp [App.patternUsable, hopm]
            · simp [App.aiUsable, hopm, hai, hs, herr]
            · simp only [App.process_query, hopm]
              unfold App.aiStep
              rw [hai]
              simp [hs, herr]
          · refine Or.inr (Or.inl ⟨s, ?_, ?_, hs, ?_⟩)
            · simp [App.aiUsable, hopm, hai, hs, herr]
            · simp [hopm, hai]
            · simp only [App.process_query, hopm]
              unfold App.aiStep
              rw [hai]
              simp [hs, herr]

/-- C5 (confirmed): if the search collaborator is ever invoked during one
query's resolution (a `web` event in the call trace), then the pattern
tier produced no usable rows and the AI tier produced no usable analysis
for that (query, dataset).  In particular — contrapositive — whenever the
pattern matcher returns a non-empty row set, the search collaborator is
never called. -/
theorem c5_theorem : ∀ (gen : String → App.GenOutcome)
    (srch : String → Option (List App.SearchHit)) (data : DataFrame)
    (query mainColumn : String),
    App.Call.web ∈ (App.process_and_download gen srch data query mainColumn).2 →
    App.patternUsable data query = false ∧ App.aiUsable gen data query = false := by
  intro gen srch data query mainColumn hmem
  by_cases hval : (App.validate_query_input query).1 = false
  · simp only [App.process_and_download, if_pos hval] at hmem
    simp at hmem
  · simp only [App.process_and_download, if_neg hval] at hmem
    rcases process_query_cases gen data query mainColumn with
      ⟨df, hpu, hne, hpq⟩ | ⟨s, hau, hai, hs, hpq⟩ | ⟨hpu, hau, hpq⟩
    · rw [hpq] at hmem
      simp only [hne] at hmem
      simp at hmem
    · rw [hpq] at hmem
      simp only [App.emptyBranch, App.emptyDF, List.isEmpty_nil, if_true, hai] at hmem
      rw [if_neg hs] at hmem
      simp at hmem
    · exact ⟨hpu, hau⟩

/-- C5 (witness): on the §8 scenario — query `"xyz123"`, both
collaborators failing — the web search is invoked, and indeed neither the
pattern tier nor the AI tier was usable. -/
theorem c5_witness :
    App.Call.web ∈ (App.process_and_download genNull srchNull sampleData "xyz123" "name").2 ∧
    App.patternUsable sampleData "xyz123" = false ∧
    App.aiUsable genNull sampleData "xyz123" = false := by
  have hmem :
      App.Call.web ∈ (App.process_and_download genNull srchNull sampleData "xyz123" "name").2 := by
    decide
  exact ⟨hmem, c5_theorem genNull srchNull sampleData "xyz123" "name" hmem⟩
